import Mathlib

/-!
Shallow embedding of the pretix-braintree payment provider
(src/pretix_braintree/payment.py, class BraintreeCC) and proofs about it.

Modelling conventions:
- JSON persistence is modelled structurally: json.dumps/json.loads become the
  identity on a Lean value, so order.payment_info is an Option PaymentInfo,
  where PaymentInfo.record r stands for the JSON object produced by
  _serialize and PaymentInfo.error m stands for the one-key JSON object
  mapping the key "error" to the string m.
- The braintree SDK and the pretix host services (mark_order_paid,
  mark_order_refunded) are external collaborators; they enter the embedding
  as explicit parameters (functions or oracle values), and the emitted side
  effects (gateway calls, RequiredAction rows, user messages, log lines) are
  returned in the output structure so theorems can quantify over them.
- Python in-place mutation of the order is modelled by explicit state
  passing: mark_order_paid outcomes carry the order state as it stands when
  the call returns or raises.
- Datetime fields are modelled as their isoformat strings, so the
  .isoformat() calls in _serialize become the identity.
-/

/-- The credit-card details sub-object of a braintree transaction, as read by
BraintreeCC._serialize (fields card_type and masked_number). -/
structure CreditCardDetails where
  card_type : String
  masked_number : String
deriving DecidableEq, Repr

/-- A braintree transaction object, restricted to the attributes that
BraintreeCC reads: every field mentioned in _serialize plus status (also used
for refund/void branching). Attributes that can be None in Python are
Option-typed. -/
structure Transaction where
  amount : String
  credit_card_details : Option CreditCardDetails
  gateway_rejection_reason : Option String
  id : String
  merchant_account_id : Option String
  order_id : Option String
  payment_instrument_type : Option String
  processor_response_code : Option String
  processor_response_text : Option String
  processor_settlement_response_code : Option String
  processor_settlement_response_text : Option String
  refund_ids : List String
  status : String
  type : String
  updated_at : String
  created_at : String
deriving DecidableEq, Repr

/-- The dictionary produced by BraintreeCC._serialize, field for field. -/
structure SerializedTxn where
  amount : String
  card_type : Option String
  card_masked_number : Option String
  gateway_rejection_reason : Option String
  id : String
  merchant_account_id : Option String
  order_id : Option String
  payment_instrument_type : Option String
  processor_response_code : Option String
  processor_response_text : Option String
  processor_settlement_response_code : Option String
  processor_settlement_response_text : Option String
  refund_ids : List String
  status : String
  type : String
  updated_at : String
  created_at : String
deriving DecidableEq, Repr

/-- BraintreeCC._serialize: builds the persisted dictionary from a
transaction. The two credit_card_details projections mirror the Python
conditional expressions (None when credit_card_details is None). -/
def serialize (t : Transaction) : SerializedTxn :=
  { amount := t.amount
    card_type := t.credit_card_details.map (fun c => c.card_type)
    card_masked_number := t.credit_card_details.map (fun c => c.masked_number)
    gateway_rejection_reason := t.gateway_rejection_reason
    id := t.id
    merchant_account_id := t.merchant_account_id
    order_id := t.order_id
    payment_instrument_type := t.payment_instrument_type
    processor_response_code := t.processor_response_code
    processor_response_text := t.processor_response_text
    processor_settlement_response_code := t.processor_settlement_response_code
    processor_settlement_response_text := t.processor_settlement_response_text
    refund_ids := t.refund_ids
    status := t.status
    type := t.type
    updated_at := t.updated_at
    created_at := t.created_at }

/-- The parsed content of order.payment_info as this plugin writes it: either
a serialized transaction object, or the JSON object with the single key
"error" holding a message (written on a charge failure with no transaction). -/
inductive PaymentInfo where
  | record (r : SerializedTxn)
  | error (message : String)
deriving DecidableEq, Repr

/-- The slice of the pretix order that BraintreeCC touches: total (read for
the charge amount), code (read for the RequiredAction data), and
payment_info (read and written; none models a missing or empty field). -/
structure Order where
  total : String
  code : String
  payment_info : Option PaymentInfo
deriving DecidableEq, Repr

/-- BraintreeCC.identifier. -/
def identifier : String := "braintreecc"

/-- Result of braintree.Transaction.sale as payment_perform consumes it:
is_success, and on failure the optional partial transaction plus message. -/
inductive SaleResult where
  | success (transaction : Transaction)
  | failure (transaction : Option Transaction) (message : String)
deriving Repr

/-- Outcome of the host service mark_order_paid, an external collaborator.
Each constructor carries the order state as mark_order_paid leaves it (the
Python call mutates the order in place, also possibly before raising).
quotaExceeded carries the str of the Quota.QuotaExceededException and
sendMailError models a SendMailException. -/
inductive MarkPaidOutcome where
  | ok (order : Order)
  | quotaExceeded (message : String) (order : Order)
  | sendMailError (order : Order)
deriving Repr

/-- The message of the PaymentException raised when the sale fails, built by
the Python percent-formatting of the gateway message into the template. -/
def declinedMessage (m : String) : String :=
  "Your payment failed because Braintree reported the following error: " ++ m

/-- The mail-specific PaymentException message of payment_perform. -/
def mailErrorMessage : String := "There was an error sending the confirmation mail."

/-- The payment_info value written by payment_perform on a failed sale: the
partial transaction the gateway returned, serialized, when there is one, and
otherwise the JSON error object carrying the gateway message. -/
def failureInfo : Option Transaction → String → PaymentInfo
  | some txn, _ => PaymentInfo.record (serialize txn)
  | none, msg => PaymentInfo.error msg

/-- Observable result of one payment_perform call.
sessionNonce is the value stored under the session key
payment_braintree_nonce when the call completes (none means the key was
deleted); requiredActions lists the created RequiredAction rows as pairs of
action_type and the order code wrapped in their data JSON; raised is the
message of the propagated PaymentException, none when the call returns
normally. -/
structure PerformOutput where
  sessionNonce : Option String
  order : Order
  requiredActions : List (String × String)
  raised : Option String
deriving DecidableEq, Repr

/-- BraintreeCC.payment_perform. nonce is the value found in the session
under payment_braintree_nonce; sale models braintree.Transaction.sale
applied to the amount str(order.total) and the nonce; markOrderPaid models
pretix mark_order_paid applied to the order, the provider identifier and the
serialized transaction. The final del of the session key is only reached on
the branch that raises nothing; every raise skips it, so the nonce stays in
the session on those branches. -/
def payment_perform (nonce : String) (order : Order)
    (sale : String → String → SaleResult)
    (markOrderPaid : Order → String → SerializedTxn → MarkPaidOutcome) :
    PerformOutput :=
  match sale order.total nonce with
  | SaleResult.success txn =>
    match markOrderPaid order identifier (serialize txn) with
    | MarkPaidOutcome.ok o =>
        { sessionNonce := none, order := o, requiredActions := [], raised := none }
    | MarkPaidOutcome.quotaExceeded msg o =>
        { sessionNonce := some nonce, order := o,
          requiredActions := [("pretix_braintree.overpaid", order.code)],
          raised := some msg }
    | MarkPaidOutcome.sendMailError o =>
        { sessionNonce := some nonce, order := o, requiredActions := [],
          raised := some mailErrorMessage }
  | SaleResult.failure t msg =>
      { sessionNonce := some nonce,
        order := { order with payment_info := some (failureInfo t msg) },
        requiredActions := [],
        raised := some (declinedMessage msg) }

/-- The user-facing error message of checkout_prepare on an empty token. -/
def jsErrorMessage : String := "You may need to enable JavaScript for credit card payments."

/-- Observable result of one checkout_prepare call: the returned Bool, the
session value under payment_braintree_nonce afterwards, and the
messages.error texts emitted. -/
structure PrepareOutput where
  returned : Bool
  sessionNonce : Option String
  errors : List String
deriving DecidableEq, Repr

/-- BraintreeCC.checkout_prepare. postNonce is request.POST under the key
payment_braintree_nonce (none when absent, so POST.get yields the empty
string); sessionNonce is the session value under the same key before the
call. -/
def checkout_prepare (postNonce : Option String) (sessionNonce : Option String) :
    PrepareOutput :=
  let token := postNonce.getD ""
  if token = "" then
    { returned := false, sessionNonce := sessionNonce, errors := [jsErrorMessage] }
  else
    { returned := true, sessionNonce := some token, errors := [] }

/-- One braintree gateway call issued by order_control_refund_perform,
tagged with the transaction id argument taken from payment_info. -/
inductive GCall where
  | find (id : String)
  | void (id : String)
  | refund (id : String)
deriving DecidableEq, Repr

/-- Result object of braintree.Transaction.void or refund as the code reads
it: is_success (the success payload transaction is carried but never read by
the code), or failure with result.message. -/
inductive BtResult where
  | success (transaction : Transaction)
  | failure (message : String)
deriving Repr

/-- Oracle for the gateway interactions of one order_control_refund_perform
call: the first find, the single void-or-refund operation (at most one is
issued), and the second find after a successful operation. An Except.error
models a raised BraintreeError with the given message. Fields not reached on
a given path are ignored. -/
structure RefundEnv where
  findFirst : Except String Transaction
  opOutcome : Except String BtResult
  findSecond : Except String Transaction

/-- The manual-transfer warning text shown by messages.warning on every
non-success branch of order_control_refund_perform (the Python source splits
it over two adjacent string literals). -/
def transferBackMessage : String :=
  "We were unable to transfer the money back automatically. Please get in touch with the customer and transfer it back manually."

/-- Observable result of one order_control_refund_perform call: the gateway
calls in order, how many times mark_order_refunded ran, the messages.warning
texts, the logger warning/exception lines, and the final payment_info. -/
structure RefundOutput where
  calls : List GCall
  markRefundedCalls : Nat
  warnings : List String
  logWarnings : List String
  payment_info : Option PaymentInfo
deriving DecidableEq, Repr

/-- The value payment_info brackets-id would read: the id of a serialized
record; none both when payment_info is absent and when it is the error
object, which has no id key — the Python code sends both cases into the same
early-return branch. -/
def paymentInfoId : Option PaymentInfo → Option String
  | some (PaymentInfo.record r) => some r.id
  | some (PaymentInfo.error _) => none
  | none => none

/-- Shared tail of order_control_refund_perform after the void-or-refund
operation op has been issued: handles result.is_success (second find, then
mark_order_refunded, then overwrite payment_info with the fresh serialized
snapshot), result failure (mark_order_refunded, log, warn) and a raised
BraintreeError from either the operation or the second find (the except
block: log, mark_order_refunded, warn). -/
def afterGatewayOp (pinfo : Option PaymentInfo) (tid : String) (op : GCall)
    (env : RefundEnv) : RefundOutput :=
  match env.opOutcome with
  | Except.error e =>
      { calls := [GCall.find tid, op], markRefundedCalls := 1,
        warnings := [transferBackMessage],
        logWarnings := ["Braintree error: " ++ e], payment_info := pinfo }
  | Except.ok (BtResult.failure msg) =>
      { calls := [GCall.find tid, op], markRefundedCalls := 1,
        warnings := [transferBackMessage],
        logWarnings := ["Braintree refund/void failed: " ++ msg],
        payment_info := pinfo }
  | Except.ok (BtResult.success _) =>
    match env.findSecond with
    | Except.error e =>
        { calls := [GCall.find tid, op, GCall.find tid], markRefundedCalls := 1,
          warnings := [transferBackMessage],
          logWarnings := ["Braintree error: " ++ e], payment_info := pinfo }
    | Except.ok fresh =>
        { calls := [GCall.find tid, op, GCall.find tid], markRefundedCalls := 1,
          warnings := [], logWarnings := [],
          payment_info := some (PaymentInfo.record (serialize fresh)) }

/-- BraintreeCC.order_control_refund_perform. pinfo is the parsed
order.payment_info; env supplies the gateway behaviour. Branches, in source
order: missing payment_info or missing id key (mark_order_refunded and
warn); first find raising BraintreeError (except block); status in
authorized or submitted_for_settlement (void); status in settled or settling
(refund); any other status (mark_order_refunded, log the invalid state,
warn, no gateway operation). -/
def order_control_refund_perform (pinfo : Option PaymentInfo) (env : RefundEnv) :
    RefundOutput :=
  match paymentInfoId pinfo with
  | none =>
      { calls := [], markRefundedCalls := 1, warnings := [transferBackMessage],
        logWarnings := [], payment_info := pinfo }
  | some tid =>
    match env.findFirst with
    | Except.error e =>
        { calls := [GCall.find tid], markRefundedCalls := 1,
          warnings := [transferBackMessage],
          logWarnings := ["Braintree error: " ++ e], payment_info := pinfo }
    | Except.ok txn =>
      if txn.status = "authorized" ∨ txn.status = "submitted_for_settlement" then
        afterGatewayOp pinfo tid (GCall.void tid) env
      else if txn.status = "settled" ∨ txn.status = "settling" then
        afterGatewayOp pinfo tid (GCall.refund tid) env
      else
        { calls := [GCall.find tid], markRefundedCalls := 1,
          warnings := [transferBackMessage],
          logWarnings := ["Braintree refund of invalid state requested: " ++ txn.status],
          payment_info := pinfo }

/-- True exactly on the environments that drive order_control_refund_perform
through its fully successful branch: an id is present, the first find
returns a transaction whose status admits void or refund, the issued
operation reports is_success, and the second find returns. -/
def refundSuccessPath (pinfo : Option PaymentInfo) (env : RefundEnv) : Bool :=
  match paymentInfoId pinfo, env.findFirst, env.opOutcome, env.findSecond with
  | some _, Except.ok txn, Except.ok (BtResult.success _), Except.ok _ =>
      txn.status == "authorized" || txn.status == "submitted_for_settlement" ||
      txn.status == "settled" || txn.status == "settling"
  | _, _, _, _ => false

/-- Sample braintree transaction for concrete instances, parametric in the
gateway status. -/
def sampleTxn (status : String) : Transaction :=
  { amount := "42.00"
    credit_card_details := some { card_type := "Visa", masked_number := "411111******1111" }
    gateway_rejection_reason := none
    id := "t1"
    merchant_account_id := some "acct"
    order_id := some "ORDER1"
    payment_instrument_type := some "credit_card"
    processor_response_code := some "1000"
    processor_response_text := some "Approved"
    processor_settlement_response_code := none
    processor_settlement_response_text := none
    refund_ids := []
    status := status
    type := "sale"
    updated_at := "2016-05-01T12:00:00"
    created_at := "2016-05-01T12:00:00" }

/-- Sample order for concrete instances. -/
def sampleOrder : Order := { total := "42.00", code := "ABC12", payment_info := none }

/-- A mark_order_paid behaviour that stores its info argument on the order
and then raises QuotaExceeded, as the pretix scenario in the spec assumes. -/
def markPaidQuotaStores : Order → String → SerializedTxn → MarkPaidOutcome :=
  fun o _ info => MarkPaidOutcome.quotaExceeded "no stock"
    { o with payment_info := some (PaymentInfo.record info) }

/-- The order state markPaidQuotaStores leaves when called on sampleOrder
with the serialized sample transaction. -/
def sampleOrderCharged : Order :=
  { sampleOrder with payment_info := some (PaymentInfo.record (serialize (sampleTxn "submitted_for_settlement"))) }

/-- C1: the claim says the session nonce is deleted on every outcome branch
of payment_perform. The code only reaches the del statement on the branch
that raises nothing; this theorem evaluates the embedding at the failing
inputs: a declined charge, a QuotaExceeded from mark_order_paid and a
SendMailException all leave the nonce stored in the session. -/
theorem C1_nonce_survives_failure_branches :
    (payment_perform "nonce-1" sampleOrder
        (fun _ _ => SaleResult.failure none "card declined")
        (fun o _ _ => MarkPaidOutcome.ok o)).sessionNonce = some "nonce-1" ∧
    (payment_perform "nonce-1" sampleOrder
        (fun _ _ => SaleResult.success (sampleTxn "submitted_for_settlement"))
        markPaidQuotaStores).sessionNonce = some "nonce-1" ∧
    (payment_perform "nonce-1" sampleOrder
        (fun _ _ => SaleResult.success (sampleTxn "submitted_for_settlement"))
        (fun o _ _ => MarkPaidOutcome.sendMailError o)).sessionNonce = some "nonce-1" :=
  ⟨rfl, rfl, rfl⟩

/-- C2 counterexample: at a concrete run where the charge succeeds and
mark_order_paid raises QuotaExceeded, the created RequiredAction row has
action_type pretix_braintree.overpaid, not the bare string the claim
names. -/
theorem C2_actiontype_counterexample :
    (payment_perform "nonce-1" sampleOrder
        (fun _ _ => SaleResult.success (sampleTxn "submitted_for_settlement"))
        markPaidQuotaStores).requiredActions.map Prod.fst ≠ ["overpaid"] := by
  decide

/-- C2 amended: if the charge succeeds and mark_order_paid raises
QuotaExceeded having stored its info argument on the order, payment_perform
creates exactly one RequiredAction row with action_type
pretix_braintree.overpaid wrapping the order code, raises PaymentException
with the str of the quota error, and leaves order.payment_info holding the
serialized successful transaction. -/
theorem C2_quota_exceeded_amended (nonce : String) (order : Order)
    (sale : String → String → SaleResult)
    (markOrderPaid : Order → String → SerializedTxn → MarkPaidOutcome)
    (txn : Transaction) (msg : String) (o : Order)
    (hs : sale order.total nonce = SaleResult.success txn)
    (hm : markOrderPaid order identifier (serialize txn) =
      MarkPaidOutcome.quotaExceeded msg o)
    (hp : o.payment_info = some (PaymentInfo.record (serialize txn))) :
    (payment_perform nonce order sale markOrderPaid).requiredActions =
      [("pretix_braintree.overpaid", order.code)] ∧
    (payment_perform nonce order sale markOrderPaid).raised = some msg ∧
    (payment_perform nonce order sale markOrderPaid).order.payment_info =
      some (PaymentInfo.record (serialize txn)) := by
  simp [payment_perform, hs, hm, hp]

/-- C2 witness: the amended theorem applied at a concrete run. -/
theorem C2_quota_exceeded_witness :
    (payment_perform "n1" sampleOrder
        (fun _ _ => SaleResult.success (sampleTxn "submitted_for_settlement"))
        markPaidQuotaStores).requiredActions =
      [("pretix_braintree.overpaid", sampleOrder.code)] ∧
    (payment_perform "n1" sampleOrder
        (fun _ _ => SaleResult.success (sampleTxn "submitted_for_settlement"))
        markPaidQuotaStores).raised = some "no stock" ∧
    (payment_perform "n1" sampleOrder
        (fun _ _ => SaleResult.success (sampleTxn "submitted_for_settlement"))
        markPaidQuotaStores).order.payment_info =
      some (PaymentInfo.record (serialize (sampleTxn "submitted_for_settlement"))) :=
  C2_quota_exceeded_amended "n1" sampleOrder
    (fun _ _ => SaleResult.success (sampleTxn "submitted_for_settlement"))
    markPaidQuotaStores (sampleTxn "submitted_for_settlement") "no stock"
    sampleOrderCharged rfl rfl rfl

/-- C5: when the sale fails, payment_perform stores on order.payment_info the
serialized partial transaction when the gateway returned one and the JSON
error object holding the bare message otherwise, and raises PaymentException
whose message embeds the gateway message. -/
theorem C5_declined_persistence (nonce : String) (order : Order)
    (sale : String → String → SaleResult)
    (markOrderPaid : Order → String → SerializedTxn → MarkPaidOutcome)
    (t : Option Transaction) (msg : String)
    (hs : sale order.total nonce = SaleResult.failure t msg) :
    (payment_perform nonce order sale markOrderPaid).order.payment_info =
      some (failureInfo t msg) ∧
    (payment_perform nonce order sale markOrderPaid).raised =
      some ("Your payment failed because Braintree reported the following error: " ++ msg) := by
  simp [payment_perform, hs, declinedMessage]

/-- C5 witness: concrete declined charges, one with a partial transaction
and one without. -/
theorem C5_declined_witness :
    (payment_perform "n1" sampleOrder
        (fun _ _ => SaleResult.failure none "card declined")
        (fun o _ _ => MarkPaidOutcome.ok o)).order.payment_info =
      some (PaymentInfo.error "card declined") ∧
    (payment_perform "n1" sampleOrder
        (fun _ _ => SaleResult.failure none "card declined")
        (fun o _ _ => MarkPaidOutcome.ok o)).raised =
      some ("Your payment failed because Braintree reported the following error: "
        ++ "card declined") :=
  C5_declined_persistence "n1" sampleOrder
    (fun _ _ => SaleResult.failure none "card declined")
    (fun o _ _ => MarkPaidOutcome.ok o) none "card declined" rfl

/-- C9: when the sale succeeds and mark_order_paid raises a
SendMailException, payment_perform raises PaymentException with the
mail-specific message, creates no RequiredAction row, and leaves the order
exactly as mark_order_paid left it (no rollback write, no error object on
payment_info). -/
theorem C9_mail_error_no_rollback (nonce : String) (order : Order)
    (sale : String → String → SaleResult)
    (markOrderPaid : Order → String → SerializedTxn → MarkPaidOutcome)
    (txn : Transaction) (o : Order)
    (hs : sale order.total nonce = SaleResult.success txn)
    (hm : markOrderPaid order identifier (serialize txn) =
      MarkPaidOutcome.sendMailError o) :
    (payment_perform nonce order sale markOrderPaid).raised = some mailErrorMessage ∧
    (payment_perform nonce order sale markOrderPaid).requiredActions = [] ∧
    (payment_perform nonce order sale markOrderPaid).order = o := by
  simp [payment_perform, hs, hm]

/-- C9 witness: the theorem applied at a concrete run. -/
theorem C9_mail_error_witness :
    (payment_perform "n1" sampleOrder
        (fun _ _ => SaleResult.success (sampleTxn "submitted_for_settlement"))
        (fun o _ _ => MarkPaidOutcome.sendMailError o)).raised = some mailErrorMessage ∧
    (payment_perform "n1" sampleOrder
        (fun _ _ => SaleResult.success (sampleTxn "submitted_for_settlement"))
        (fun o _ _ => MarkPaidOutcome.sendMailError o)).requiredActions = [] ∧
    (payment_perform "n1" sampleOrder
        (fun _ _ => SaleResult.success (sampleTxn "submitted_for_settlement"))
        (fun o _ _ => MarkPaidOutcome.sendMailError o)).order = sampleOrder :=
  C9_mail_error_no_rollback "n1" sampleOrder
    (fun _ _ => SaleResult.success (sampleTxn "submitted_for_settlement"))
    (fun o _ _ => MarkPaidOutcome.sendMailError o)
    (sampleTxn "submitted_for_settlement") sampleOrder rfl rfl

/-- C7: checkout_prepare fails, surfaces the JavaScript hint and leaves the
session untouched exactly when the posted token is empty or absent; on a
non-empty token it stores the token in the session and returns true. -/
theorem C7_capture_token (post session : Option String) :
    (post.getD "" = "" →
      checkout_prepare post session =
        { returned := false, sessionNonce := session, errors := [jsErrorMessage] }) ∧
    (post.getD "" ≠ "" →
      checkout_prepare post session =
        { returned := true, sessionNonce := some (post.getD ""), errors := [] }) := by
  constructor
  · intro h
    unfold checkout_prepare
    simp [h]
  · intro h
    unfold checkout_prepare
    simp [h]

/-- C7 witness: the theorem applied to a concrete non-empty and a concrete
absent token. -/
theorem C7_capture_token_witness :
    checkout_prepare (some "tok-1") none =
      { returned := true, sessionNonce := some "tok-1", errors := [] } ∧
    checkout_prepare none (some "old") =
      { returned := false, sessionNonce := some "old", errors := [jsErrorMessage] } :=
  ⟨(C7_capture_token (some "tok-1") none).2 (by decide),
   (C7_capture_token none (some "old")).1 rfl⟩

/-- Branch lemma: with no usable transaction id in payment_info,
order_control_refund_perform takes the early manual-transfer return. -/
theorem refund_noid_branch (pinfo : Option PaymentInfo) (env : RefundEnv)
    (hid : paymentInfoId pinfo = none) :
    order_control_refund_perform pinfo env =
      { calls := []
        markRefundedCalls := 1
        warnings := [transferBackMessage]
        logWarnings := []
        payment_info := pinfo } := by
  simp only [order_control_refund_perform, hid]

/-- Branch lemma: a BraintreeError from the first find lands in the except
block. -/
theorem refund_finderror_branch (pinfo : Option PaymentInfo) (env : RefundEnv)
    (tid : String) (e : String)
    (hid : paymentInfoId pinfo = some tid)
    (hf : env.findFirst = Except.error e) :
    order_control_refund_perform pinfo env =
      { calls := [GCall.find tid]
        markRefundedCalls := 1
        warnings := [transferBackMessage]
        logWarnings := ["Braintree error: " ++ e]
        payment_info := pinfo } := by
  simp only [order_control_refund_perform, hid, hf]

/-- Branch lemma: a found status of authorized or submitted_for_settlement
selects the void operation. -/
theorem refund_void_branch (pinfo : Option PaymentInfo) (env : RefundEnv)
    (tid : String) (txn : Transaction)
    (hid : paymentInfoId pinfo = some tid)
    (hf : env.findFirst = Except.ok txn)
    (hst : txn.status = "authorized" ∨ txn.status = "submitted_for_settlement") :
    order_control_refund_perform pinfo env =
      afterGatewayOp pinfo tid (GCall.void tid) env := by
  simp only [order_control_refund_perform, hid, hf]
  rw [if_pos hst]

/-- Branch lemma: a found status of settled or settling selects the refund
operation. -/
theorem refund_refund_branch (pinfo : Option PaymentInfo) (env : RefundEnv)
    (tid : String) (txn : Transaction)
    (hid : paymentInfoId pinfo = some tid)
    (hf : env.findFirst = Except.ok txn)
    (hst : txn.status = "settled" ∨ txn.status = "settling") :
    order_control_refund_perform pinfo env =
      afterGatewayOp pinfo tid (GCall.refund tid) env := by
  have hneg : ¬(txn.status = "authorized" ∨ txn.status = "submitted_for_settlement") := by
    rcases hst with h | h <;> rw [h] <;> decide
  simp only [order_control_refund_perform, hid, hf]
  rw [if_neg hneg, if_pos hst]

/-- Branch lemma: a found status outside both operable sets lands in the
invalid-state branch. -/
theorem refund_invalid_branch (pinfo : Option PaymentInfo) (env : RefundEnv)
    (tid : String) (txn : Transaction)
    (hid : paymentInfoId pinfo = some tid)
    (hf : env.findFirst = Except.ok txn)
    (h1 : txn.status ≠ "authorized") (h2 : txn.status ≠ "submitted_for_settlement")
    (h3 : txn.status ≠ "settled") (h4 : txn.status ≠ "settling") :
    order_control_refund_perform pinfo env =
      { calls := [GCall.find tid]
        markRefundedCalls := 1
        warnings := [transferBackMessage]
        logWarnings := ["Braintree refund of invalid state requested: " ++ txn.status]
        payment_info := pinfo } := by
  simp only [order_control_refund_perform, hid, hf]
  rw [if_neg (fun h => h.elim h1 h2), if_neg (fun h => h.elim h3 h4)]

/-- The gateway call list of the shared operation tail is the first find
followed by the operation, plus the second find on the success branch. -/
theorem afterGatewayOp_calls (pinfo : Option PaymentInfo) (tid : String) (op : GCall)
    (env : RefundEnv) :
    (afterGatewayOp pinfo tid op env).calls = [GCall.find tid, op] ∨
    (afterGatewayOp pinfo tid op env).calls = [GCall.find tid, op, GCall.find tid] := by
  obtain ⟨f1, o1, f2⟩ := env
  rcases o1 with e | r
  · exact Or.inl rfl
  · rcases r with p | m
    · rcases f2 with e | f
      · exact Or.inr rfl
      · exact Or.inr rfl
    · exact Or.inl rfl

/-- On a successful operation followed by a successful second find, the
operation tail reports no warnings and overwrites payment_info with the
serialized fresh snapshot. -/
theorem afterGatewayOp_success (pinfo : Option PaymentInfo) (tid : String) (op : GCall)
    (env : RefundEnv) (payload fresh : Transaction)
    (hop : env.opOutcome = Except.ok (BtResult.success payload))
    (h2 : env.findSecond = Except.ok fresh) :
    afterGatewayOp pinfo tid op env =
      { calls := [GCall.find tid, op, GCall.find tid]
        markRefundedCalls := 1
        warnings := []
        logWarnings := []
        payment_info := some (PaymentInfo.record (serialize fresh)) } := by
  simp only [afterGatewayOp, hop, h2]

/-- The operation tail leaves payment_info unchanged except on the branch
where the operation succeeded and the second find returned. -/
theorem afterGatewayOp_payment_info (pinfo : Option PaymentInfo) (tid : String)
    (op : GCall) (env : RefundEnv) :
    (afterGatewayOp pinfo tid op env).payment_info = pinfo ∨
    ((∃ p, env.opOutcome = Except.ok (BtResult.success p)) ∧
      ∃ f, env.findSecond = Except.ok f) := by
  obtain ⟨f1, o1, f2⟩ := env
  rcases o1 with e | r
  · exact Or.inl rfl
  · rcases r with p | m
    · rcases f2 with e | f
      · exact Or.inl rfl
      · exact Or.inr ⟨⟨p, rfl⟩, ⟨f, rfl⟩⟩
    · exact Or.inl rfl

/-- A RefundOutput holding one serialized record cannot hold a different
one. -/
theorem payment_info_ne_of_serialize_ne (o : RefundOutput) (a b : SerializedTxn)
    (hpi : o.payment_info = some (PaymentInfo.record a)) (hne : b ≠ a) :
    o.payment_info ≠ some (PaymentInfo.record b) := by
  rw [hpi]
  intro hc
  exact hne (PaymentInfo.record.inj (Option.some.inj hc)).symm

/-- refundSuccessPath is true on any environment satisfying the success-path
hypotheses. -/
theorem refundSuccessPath_eq_true (pinfo : Option PaymentInfo) (env : RefundEnv)
    (tid : String) (txn p f : Transaction)
    (hid : paymentInfoId pinfo = some tid)
    (hf : env.findFirst = Except.ok txn)
    (hst : txn.status = "authorized" ∨ txn.status = "submitted_for_settlement" ∨
      txn.status = "settled" ∨ txn.status = "settling")
    (hop : env.opOutcome = Except.ok (BtResult.success p))
    (h2 : env.findSecond = Except.ok f) :
    refundSuccessPath pinfo env = true := by
  unfold refundSuccessPath
  rw [hid, hf, hop, h2]
  show (txn.status == "authorized" || txn.status == "submitted_for_settlement" ||
    txn.status == "settled" || txn.status == "settling") = true
  rcases hst with h | h | h | h <;> rw [h] <;> decide

/-- Stored payment_info fixture: a serialized sample transaction whose
reference id is t1. -/
def piStored : Option PaymentInfo :=
  some (PaymentInfo.record (serialize (sampleTxn "settled")))

/-- Environment fixture: find sees an authorized transaction, the void
succeeds, the second find returns the voided snapshot. -/
def envVoidOk : RefundEnv :=
  { findFirst := Except.ok (sampleTxn "authorized")
    opOutcome := Except.ok (BtResult.success (sampleTxn "authorized"))
    findSecond := Except.ok (sampleTxn "voided") }

/-- Environment fixture: find sees a settled transaction, the refund
succeeds with a settling payload, the second find returns a voided
snapshot distinct from the payload. -/
def envRefundOk : RefundEnv :=
  { findFirst := Except.ok (sampleTxn "settled")
    opOutcome := Except.ok (BtResult.success (sampleTxn "settling"))
    findSecond := Except.ok (sampleTxn "voided") }

/-- Environment fixture: find sees an already voided transaction, so neither
gateway operation applies. -/
def envInvalid : RefundEnv :=
  { findFirst := Except.ok (sampleTxn "voided")
    opOutcome := Except.ok (BtResult.failure "unused")
    findSecond := Except.ok (sampleTxn "voided") }

/-- C3: when the found status is authorized or submitted_for_settlement,
order_control_refund_perform issues a void and never a refund; when it is
settled or settling, it issues a refund and never a void. -/
theorem C3_status_branching (pinfo : Option PaymentInfo) (env : RefundEnv)
    (tid : String) (txn : Transaction)
    (hid : paymentInfoId pinfo = some tid)
    (hf : env.findFirst = Except.ok txn) :
    ((txn.status = "authorized" ∨ txn.status = "submitted_for_settlement") →
      GCall.void tid ∈ (order_control_refund_perform pinfo env).calls ∧
      ∀ j, GCall.refund j ∉ (order_control_refund_perform pinfo env).calls) ∧
    ((txn.status = "settled" ∨ txn.status = "settling") →
      GCall.refund tid ∈ (order_control_refund_perform pinfo env).calls ∧
      ∀ j, GCall.void j ∉ (order_control_refund_perform pinfo env).calls) := by
  constructor
  · intro hst
    rw [refund_void_branch pinfo env tid txn hid hf hst]
    rcases afterGatewayOp_calls pinfo tid (GCall.void tid) env with h | h <;> rw [h] <;>
      exact ⟨by simp, by intro j; simp⟩
  · intro hst
    rw [refund_refund_branch pinfo env tid txn hid hf hst]
    rcases afterGatewayOp_calls pinfo tid (GCall.refund tid) env with h | h <;> rw [h] <;>
      exact ⟨by simp, by intro j; simp⟩

/-- C3 witness: the theorem applied at an authorized and at a settled
concrete run. -/
theorem C3_status_branching_witness :
    (GCall.void "t1" ∈ (order_control_refund_perform piStored envVoidOk).calls ∧
      ∀ j, GCall.refund j ∉ (order_control_refund_perform piStored envVoidOk).calls) ∧
    (GCall.refund "t1" ∈ (order_control_refund_perform piStored envRefundOk).calls ∧
      ∀ j, GCall.void j ∉ (order_control_refund_perform piStored envRefundOk).calls) :=
  ⟨(C3_status_branching piStored envVoidOk "t1" (sampleTxn "authorized") rfl rfl).1
      (Or.inl rfl),
   (C3_status_branching piStored envRefundOk "t1" (sampleTxn "settled") rfl rfl).2
      (Or.inl rfl)⟩

/-- C4: every execution path of order_control_refund_perform calls
mark_order_refunded exactly once, whatever payment_info holds and whatever
the gateway does. -/
theorem C4_markRefunded_exactly_once (pinfo : Option PaymentInfo) (env : RefundEnv) :
    (order_control_refund_perform pinfo env).markRefundedCalls = 1 := by
  unfold order_control_refund_perform afterGatewayOp
  repeat' split
  all_goals rfl

/-- C6: on any found status outside both operable sets the adapter issues no
void and no refund (the only gateway call is the find), calls
mark_order_refunded exactly once, logs the invalid state and surfaces the
manual-transfer warning. -/
theorem C6_invalid_state (pinfo : Option PaymentInfo) (env : RefundEnv)
    (tid : String) (txn : Transaction)
    (hid : paymentInfoId pinfo = some tid)
    (hf : env.findFirst = Except.ok txn)
    (h1 : txn.status ≠ "authorized") (h2 : txn.status ≠ "submitted_for_settlement")
    (h3 : txn.status ≠ "settled") (h4 : txn.status ≠ "settling") :
    (order_control_refund_perform pinfo env).calls = [GCall.find tid] ∧
    (order_control_refund_perform pinfo env).markRefundedCalls = 1 ∧
    (order_control_refund_perform pinfo env).warnings = [transferBackMessage] ∧
    (order_control_refund_perform pinfo env).logWarnings =
      ["Braintree refund of invalid state requested: " ++ txn.status] := by
  rw [refund_invalid_branch pinfo env tid txn hid hf h1 h2 h3 h4]
  exact ⟨rfl, rfl, rfl, rfl⟩

/-- C6 witness: the theorem applied at a voided concrete transaction. -/
theorem C6_invalid_state_witness :
    (order_control_refund_perform piStored envInvalid).calls = [GCall.find "t1"] ∧
    (order_control_refund_perform piStored envInvalid).markRefundedCalls = 1 ∧
    (order_control_refund_perform piStored envInvalid).warnings = [transferBackMessage] ∧
    (order_control_refund_perform piStored envInvalid).logWarnings =
      ["Braintree refund of invalid state requested: " ++ (sampleTxn "voided").status] :=
  C6_invalid_state piStored envInvalid "t1" (sampleTxn "voided") rfl rfl
    (by decide) (by decide) (by decide) (by decide)

/-- C8: after a successful void or refund the adapter issues a second find
with the same reference id, persists the serialized fresh snapshot from that
second find, and calls mark_order_refunded once; in particular, when the
operation payload differs from the fresh snapshot, what is persisted is not
the payload. -/
theorem C8_success_refetch (pinfo : Option PaymentInfo) (env : RefundEnv)
    (tid : String) (txn payload fresh : Transaction)
    (hid : paymentInfoId pinfo = some tid)
    (hf : env.findFirst = Except.ok txn)
    (hst : txn.status = "authorized" ∨ txn.status = "submitted_for_settlement" ∨
      txn.status = "settled" ∨ txn.status = "settling")
    (hop : env.opOutcome = Except.ok (BtResult.success payload))
    (h2 : env.findSecond = Except.ok fresh) :
    ((order_control_refund_perform pinfo env).calls =
        [GCall.find tid, GCall.void tid, GCall.find tid] ∨
      (order_control_refund_perform pinfo env).calls =
        [GCall.find tid, GCall.refund tid, GCall.find tid]) ∧
    (order_control_refund_perform pinfo env).payment_info =
      some (PaymentInfo.record (serialize fresh)) ∧
    (order_control_refund_perform pinfo env).markRefundedCalls = 1 ∧
    (serialize payload ≠ serialize fresh →
      (order_control_refund_perform pinfo env).payment_info ≠
        some (PaymentInfo.record (serialize payload))) := by
  have hred : order_control_refund_perform pinfo env =
        afterGatewayOp pinfo tid (GCall.void tid) env ∨
      order_control_refund_perform pinfo env =
        afterGatewayOp pinfo tid (GCall.refund tid) env := by
    rcases hst with h | h | h | h
    · exact Or.inl (refund_void_branch pinfo env tid txn hid hf (Or.inl h))
    · exact Or.inl (refund_void_branch pinfo env tid txn hid hf (Or.inr h))
    · exact Or.inr (refund_refund_branch pinfo env tid txn hid hf (Or.inl h))
    · exact Or.inr (refund_refund_branch pinfo env tid txn hid hf (Or.inr h))
  rcases hred with h | h <;> rw [h]
  · rw [afterGatewayOp_success pinfo tid (GCall.void tid) env payload fresh hop h2]
    refine ⟨Or.inl rfl, rfl, rfl, fun hne => ?_⟩
    exact payment_info_ne_of_serialize_ne _ (serialize fresh) (serialize payload) rfl hne
  · rw [afterGatewayOp_success pinfo tid (GCall.refund tid) env payload fresh hop h2]
    refine ⟨Or.inr rfl, rfl, rfl, fun hne => ?_⟩
    exact payment_info_ne_of_serialize_ne _ (serialize fresh) (serialize payload) rfl hne

/-- C8 witness: the theorem applied at a settled concrete run whose refund
payload differs from the re-fetched snapshot, with the inner implication
discharged. -/
theorem C8_success_refetch_witness :
    ((order_control_refund_perform piStored envRefundOk).calls =
        [GCall.find "t1", GCall.void "t1", GCall.find "t1"] ∨
      (order_control_refund_perform piStored envRefundOk).calls =
        [GCall.find "t1", GCall.refund "t1", GCall.find "t1"]) ∧
    (order_control_refund_perform piStored envRefundOk).payment_info =
      some (PaymentInfo.record (serialize (sampleTxn "voided"))) ∧
    (order_control_refund_perform piStored envRefundOk).markRefundedCalls = 1 ∧
    (order_control_refund_perform piStored envRefundOk).payment_info ≠
      some (PaymentInfo.record (serialize (sampleTxn "settling"))) := by
  have h := C8_success_refetch piStored envRefundOk "t1" (sampleTxn "settled")
    (sampleTxn "settling") (sampleTxn "voided") rfl rfl
    (Or.inr (Or.inr (Or.inl rfl))) rfl rfl
  exact ⟨h.1, h.2.1, h.2.2.1, h.2.2.2 (by decide)⟩

/-- C10: order_control_refund_perform leaves payment_info unchanged on every
path except the fully successful one (id present, find returns an operable
status, the operation succeeds, the second find returns). -/
theorem C10_frame_payment_info (pinfo : Option PaymentInfo) (env : RefundEnv) :
    (order_control_refund_perform pinfo env).payment_info = pinfo ∨
    refundSuccessPath pinfo env = true := by
  cases hid : paymentInfoId pinfo with
  | none =>
      rw [refund_noid_branch pinfo env hid]
      exact Or.inl rfl
  | some tid =>
    cases hf : env.findFirst with
    | error e =>
        rw [refund_finderror_branch pinfo env tid e hid hf]
        exact Or.inl rfl
    | ok txn =>
      by_cases hA : txn.status = "authorized" ∨ txn.status = "submitted_for_settlement"
      · rw [refund_void_branch pinfo env tid txn hid hf hA]
        rcases afterGatewayOp_payment_info pinfo tid (GCall.void tid) env with
          h | ⟨⟨p, hp⟩, ⟨f, hf2⟩⟩
        · exact Or.inl h
        · refine Or.inr (refundSuccessPath_eq_true pinfo env tid txn p f hid hf ?_ hp hf2)
          exact hA.elim Or.inl (fun hb => Or.inr (Or.inl hb))
      · by_cases hS : txn.status = "settled" ∨ txn.status = "settling"
        · rw [refund_refund_branch pinfo env tid txn hid hf hS]
          rcases afterGatewayOp_payment_info pinfo tid (GCall.refund tid) env with
            h | ⟨⟨p, hp⟩, ⟨f, hf2⟩⟩
          · exact Or.inl h
          · refine Or.inr (refundSuccessPath_eq_true pinfo env tid txn p f hid hf ?_ hp hf2)
            exact hS.elim (fun hc => Or.inr (Or.inr (Or.inl hc)))
              (fun hd => Or.inr (Or.inr (Or.inr hd)))
        · rw [refund_invalid_branch pinfo env tid txn hid hf
            (fun ha => hA (Or.inl ha)) (fun hb => hA (Or.inr hb))
            (fun hc => hS (Or.inl hc)) (fun hd => hS (Or.inr hd))]
          exact Or.inl rfl
